/-
Verification of mnemnk-screen (src/main.rs): a shallow embedding of the
agent's configuration parsing, blank filter, change detector and capture
cycle, with theorems checking the design document's claims against it.

Modelling conventions:
* Machine integers (u64, u8, u32) are Nat; the `as u8` cast is `% 256`.
* f32/f64 values are modelled as exact rationals (ℚ).  The only float
  arithmetic in the program is `different_pixels as f32 / total as f32`
  compared with `same_screen_ratio`; we keep the numerator/denominator
  pair and compare exactly, with a zero denominator encoding the NaN
  produced by `0.0 / 0.0` (all comparisons with NaN are false).  Every
  instance proved or refuted below only involves quotients that are
  exact in f32 (0, or NaN, or the literal 1.0), so the abstraction is
  faithful at those points.
* serde_json's string → Value parser is external; functions that consume
  a parsed payload take the resulting `Json` value directly
  (`Value::Null` on parse failure, as in `unwrap_or(Value::Null)`).
* The screen-capture and PNG/base64 codecs are external collaborators;
  `execute_task` takes their outcomes as oracle arguments.
* A Rust `unwrap()` panic is modelled as an explicit error constructor.
-/
import Mathlib

/-- Model of `serde_json::Number` (PosInt / NegInt / Float).  The f64 of
the Float variant is abstracted as an exact rational. -/
inductive JNum where
  | uint (n : Nat)
  | int (i : Int)
  | float (q : ℚ)
deriving DecidableEq

/-- Model of `serde_json::Value`. -/
inductive Json where
  | null
  | bool (b : Bool)
  | num (n : JNum)
  | str (s : String)
  | arr (xs : List Json)
  | obj (fields : List (String × Json))

/-- Model of `Value::as_u64`: `Some` exactly for the PosInt number variant. -/
def Json.as_u64 : Json → Option Nat
  | Json.num (JNum.uint n) => some n
  | _ => none

/-- Model of `Value::as_f64`: `Some` for every number variant, `None` otherwise. -/
def Json.as_f64 : Json → Option ℚ
  | Json.num (JNum.uint n) => some (n : ℚ)
  | Json.num (JNum.int i) => some (i : ℚ)
  | Json.num (JNum.float q) => some q
  | _ => none

/-- Is the value a JSON object (the `Value::Object` pattern of line 47)? -/
def Json.isObj : Json → Bool
  | Json.obj _ => true
  | _ => false

/-- Model of `serde_json::Map::get` on an object's field list. -/
def jget (fields : List (String × Json)) (key : String) : Option Json :=
  (fields.find? (fun p => p.1 = key)).map Prod.snd

/-- The `AgentConfig` struct (main.rs lines 18-31).  `same_screen_ratio`
is an f32 in the source, modelled as ℚ. -/
structure AgentConfig where
  interval : Nat
  almost_black_threshold : Nat
  non_blank_threshold : Nat
  same_screen_ratio : ℚ
deriving DecidableEq

/-- The `Default` impl for `AgentConfig` (lines 33-42); the f32 literal
0.01 is modelled as the exact rational 1/100. -/
def AgentConfig.default : AgentConfig :=
  { interval := 60
    almost_black_threshold := 20
    non_blank_threshold := 400
    same_screen_ratio := mkRat 1 100 }

/-- The `interval` block of `AgentConfig::from` (lines 48-50): a present
field is read with `as_u64().unwrap()`; the unwrap panic on a
non-PosInt value is modelled as `Except.error ()`. -/
def updInterval (c : List (String × Json)) (cfg : AgentConfig) : Except Unit AgentConfig :=
  match jget c "interval" with
  | some x =>
    match x.as_u64 with
    | some n => Except.ok { cfg with interval := n }
    | none => Except.error ()
  | none => Except.ok cfg

/-- The `almost_black_threshold` block of `AgentConfig::from` (lines 51-53). -/
def updAlmostBlack (c : List (String × Json)) (cfg : AgentConfig) : Except Unit AgentConfig :=
  match jget c "almost_black_threshold" with
  | some x =>
    match x.as_u64 with
    | some n => Except.ok { cfg with almost_black_threshold := n }
    | none => Except.error ()
  | none => Except.ok cfg

/-- The `non_blank_threshold` block of `AgentConfig::from` (lines 54-56). -/
def updNonBlank (c : List (String × Json)) (cfg : AgentConfig) : Except Unit AgentConfig :=
  match jget c "non_blank_threshold" with
  | some x =>
    match x.as_u64 with
    | some n => Except.ok { cfg with non_blank_threshold := n }
    | none => Except.error ()
  | none => Except.ok cfg

/-- The `same_screen_threshold` block of `AgentConfig::from` (lines 57-59):
note the source looks up the key "same_screen_threshold" (not
"same_screen_ratio") and stores it with `as_f64().unwrap() as f32`. -/
def updSameScreen (c : List (String × Json)) (cfg : AgentConfig) : Except Unit AgentConfig :=
  match jget c "same_screen_threshold" with
  | some x =>
    match x.as_f64 with
    | some q => Except.ok { cfg with same_screen_ratio := q }
    | none => Except.error ()
  | none => Except.ok cfg

/-- `AgentConfig::from(&str)` (lines 44-63), taking the serde_json parse
result of the string (`Value::Null` when the string does not parse).
Starts from the default config and conditionally overwrites each
recognized field; a present field whose value cannot be read is a
panic (`Except.error ()`). -/
def AgentConfig.fromValue (v : Json) : Except Unit AgentConfig :=
  match v with
  | Json.obj c =>
    match updInterval c AgentConfig.default with
    | Except.error e => Except.error e
    | Except.ok cfg =>
      match updAlmostBlack c cfg with
      | Except.error e => Except.error e
      | Except.ok cfg =>
        match updNonBlank c cfg with
        | Except.error e => Except.error e
        | Except.ok cfg =>
          match updSameScreen c cfg with
          | Except.error e => Except.error e
          | Except.ok cfg => Except.ok cfg
  | _ => Except.ok AgentConfig.default

/-- Character-level first-space split, modelling `str::split_once(" ")`
(line 262). -/
def splitOnceSpace : List Char → Option (List Char × List Char)
  | [] => none
  | ch :: rest =>
    if ch = ' ' then some ([], rest)
    else (splitOnceSpace rest).map (fun p => (ch :: p.1, p.2))

/-- Character-level trim of leading and trailing whitespace, modelling
`str::trim` (line 257). -/
def trimChars (l : List Char) : List Char :=
  ((l.dropWhile Char.isWhitespace).reverse.dropWhile Char.isWhitespace).reverse

/-- `parse_line` (lines 252-267): empty or whitespace-only lines yield no
command; otherwise the first space separates the command token from the
verbatim argument payload. -/
def parse_line (line : String) : Option (String × String) :=
  if line.data.isEmpty then none
  else
    let t := trimChars line.data
    if t.isEmpty then none
    else
      match splitOnceSpace t with
      | some (cmd, args) => some (String.mk cmd, String.mk args)
      | none => some (String.mk t, "")

/-- One RGBA pixel; channels are u8 values carried as Nat. -/
structure Rgba where
  r : Nat
  g : Nat
  b : Nat
  a : Nat
deriving DecidableEq

/-- The `RgbaImage` buffer: row-major pixel list of length width*height. -/
structure RgbaImage where
  width : Nat
  height : Nat
  data : List Rgba
deriving DecidableEq

/-- `RgbaImage::get_pixel(x, y)` for in-bounds coordinates (out-of-bounds,
which panics in Rust, yields a black pixel here; all uses below are
in-bounds). -/
def RgbaImage.get_pixel (img : RgbaImage) (x y : Nat) : Rgba :=
  (img.data.get? (y * img.width + x)).getD ⟨0, 0, 0, 0⟩

/-- The `GrayImage` fingerprint: row-major luma list (u8 values as Nat). -/
structure GrayImage where
  width : Nat
  height : Nat
  data : List Nat
deriving DecidableEq

/-- RGBA to grayscale weighted sum of line 290:
`(r*299 + g*587 + b*114) / 1000` in integer arithmetic. -/
def luma (p : Rgba) : Nat :=
  (p.r * 299 + p.g * 587 + p.b * 114) / 1000

/-- `fast_downsample` (lines 275-298): block-average each scale×scale
block of lumas into one output pixel; `floor` division drops remainder
rows/columns; the final `as u8` cast is `% 256`. -/
def fast_downsample (img : RgbaImage) (scale : Nat) : GrayImage :=
  let new_width := img.width / scale
  let new_height := img.height / scale
  let scale_squared := scale * scale
  { width := new_width
    height := new_height
    data :=
      (List.range new_height).flatMap (fun y =>
        (List.range new_width).map (fun x =>
          let sum :=
            ((List.range scale).flatMap (fun dy =>
              (List.range scale).map (fun dx =>
                luma (img.get_pixel (x * scale + dx) (y * scale + dy))))).sum
          (sum / scale_squared) % 256)) }

/-- Whether two luma values differ by more than the sensitivity constant 5
(lines 307-313). -/
def diffGt5 (p1 p2 : Nat) : Bool :=
  decide (5 < (if p2 < p1 then p1 - p2 else p2 - p1))

/-- The f32 returned by `get_difference_ratio2`, kept as an exact
numerator/denominator pair.  `den = 0` encodes the NaN that Rust's
`0.0 / 0.0` produces when both fingerprints are empty (0×0). -/
structure DiffRatio where
  num : Nat
  den : Nat
deriving DecidableEq

/-- Comparison of the difference ratio with `same_screen_ratio`
(`diff_ratio < self.config.same_screen_ratio`, line 239).  A NaN ratio
(zero denominator) compares false, as in IEEE f32. -/
def DiffRatio.lt (r : DiffRatio) (q : ℚ) : Bool :=
  decide (r.den ≠ 0 ∧ mkRat (Int.ofNat r.num) r.den < q)

/-- `get_difference_ratio2` (lines 300-317): dimension mismatch returns
1.0; otherwise the count of pixel pairs whose luma difference exceeds 5,
divided by the pixel count `width * height`. -/
def get_difference_ratio2 (img1 img2 : GrayImage) : DiffRatio :=
  if img1.width ≠ img2.width ∨ img1.height ≠ img2.height then
    { num := 1, den := 1 }
  else
    { num := ((img1.data.zip img2.data).filter (fun p => diffGt5 p.1 p.2)).length
      den := img1.width * img1.height }

/-- Capture timestamp: the epoch milliseconds together with the chrono
date/time renderings used for the image id (external formatting treated
as data). -/
structure Timestamp where
  millis : Int
  ymd : String
  hms : String
deriving DecidableEq

/-- The `Screenshot` struct (lines 65-69). -/
structure Screenshot where
  timestamp : Timestamp
  monitor : Int
  image : RgbaImage
deriving DecidableEq

/-- The `ScreenAgent` struct (lines 84-88): config plus the persistent
decision state (`last_image` fingerprint, `last_image_id`). -/
structure ScreenAgent where
  config : AgentConfig
  last_image : Option GrayImage
  last_image_id : Option String
deriving DecidableEq

/-- `ScreenAgent::new` (lines 91-97). -/
def ScreenAgent.new (config : AgentConfig) : ScreenAgent :=
  { config := config, last_image := none, last_image_id := none }

/-- A sampled pixel's non-blank test (lines 221-224): any of R, G, B at
least `almost_black_threshold as u8`; the u64→u8 cast is `% 256`. -/
def nonBlankPix (abt : Nat) (p : Rgba) : Bool :=
  decide (abt % 256 ≤ p.r) || decide (abt % 256 ≤ p.g) || decide (abt % 256 ≤ p.b)

/-- The pixels visited by `image.pixels().step_by(120)` (line 220):
row-major indices 0, 120, 240, …. -/
def sampleStride (n : Nat) (l : List α) : List α :=
  (l.enum.filter (fun p => p.1 % n = 0)).map Prod.snd

/-- The counting loop of `is_blank` (lines 219-231): increment on a
non-blank sample, return not-blank as soon as the count reaches
`non_blank_threshold`, blank if the samples are exhausted. -/
def isBlankAux (abt nbt : Nat) (count : Nat) : List Rgba → Bool
  | [] => true
  | p :: rest =>
    let count2 := if nonBlankPix abt p then count + 1 else count
    if nbt ≤ count2 then false else isBlankAux abt nbt count2 rest

/-- `ScreenAgent::is_blank` (lines 218-232). -/
def ScreenAgent.is_blank (ag : ScreenAgent) (image : RgbaImage) : Bool :=
  isBlankAux ag.config.almost_black_threshold ag.config.non_blank_threshold 0
    (sampleStride 120 image.data)

/-- `ScreenAgent::is_same` (lines 234-249): downsample the frame, compare
with the stored fingerprint when present; on a "different" verdict (and
on a missing fingerprint) the stored fingerprint is replaced.  Returns
the verdict together with the updated agent (`&mut self`). -/
def ScreenAgent.is_same (ag : ScreenAgent) (screenshot : Screenshot) : Bool × ScreenAgent :=
  let gray_image := fast_downsample screenshot.image 4
  match ag.last_image with
  | some last_image =>
    let diff_ratio := get_difference_ratio2 gray_image last_image
    if DiffRatio.lt diff_ratio ag.config.same_screen_ratio then
      (true, ag)
    else
      (false, { ag with last_image := some gray_image })
  | none => (false, { ag with last_image := some gray_image })

/-- An output event line (`.OUT screen {json}`): either a full
`ScreenEvent` (lines 71-76) or a `SameScreenEvent` (lines 78-82). -/
inductive Event where
  | screen (t : Int) (image : String) (image_id : String)
  | sameScreen (t : Int) (image_id : String)
deriving DecidableEq

/-- How a capture cycle can fail.  `capture` and `encode` are `Err`
values propagated by `?` and absorbed by the loop; `unwrapPanic` is the
`self.last_image_id.clone().unwrap()` panic of line 146, which aborts
the process. -/
inductive TaskError where
  | capture
  | encode
  | unwrapPanic
deriving DecidableEq

/-- The image id of lines 157-160: `"<ymd>-<hms>-<monitor>"`. -/
def mk_image_id (s : Screenshot) : String :=
  s.timestamp.ymd ++ "-" ++ s.timestamp.hms ++ "-" ++ toString s.monitor

/-- `ScreenAgent::take_screenshot` (lines 175-195).  `cap` is the outcome
of the external capture (`Monitor::all` / `capture_image`): an error, or
`none` when no primary monitor exists, or the primary monitor's
screenshot.  A captured frame that the blank filter rejects yields
`none` (nothing to report). -/
def ScreenAgent.take_screenshot (ag : ScreenAgent)
    (cap : Except Unit (Option Screenshot)) : Except Unit (Option Screenshot) :=
  match cap with
  | Except.error e => Except.error e
  | Except.ok none => Except.ok none
  | Except.ok (some s) =>
    if ag.is_blank s.image then Except.ok none else Except.ok (some s)

/-- `ScreenAgent::execute_task` (lines 128-173).  `png` is the outcome of
the external `rgba_to_base64_png` codec (the base64 string on success).
Returns the list of events printed this tick (empty on the no-frame
path) together with the final agent; note that `is_same` has already
replaced the stored fingerprint when the verdict is "different", even
if PNG encoding fails afterwards. -/
def ScreenAgent.execute_task (ag : ScreenAgent)
    (cap : Except Unit (Option Screenshot)) (png : Except Unit String) :
    Except TaskError (List Event) × ScreenAgent :=
  match ag.take_screenshot cap with
  | Except.error _ => (Except.error TaskError.capture, ag)
  | Except.ok none => (Except.ok [], ag)
  | Except.ok (some screenshot) =>
    let p := ScreenAgent.is_same ag screenshot
    let ag1 := p.2
    if p.1 then
      match ag1.last_image_id with
      | some id =>
        (Except.ok [Event.sameScreen screenshot.timestamp.millis id], ag1)
      | none => (Except.error TaskError.unwrapPanic, ag1)
    else
      match png with
      | Except.ok image =>
        let image_id := mk_image_id screenshot
        (Except.ok [Event.screen screenshot.timestamp.millis image image_id],
          { ag1 with last_image_id := some image_id })
      | Except.error _ => (Except.error TaskError.encode, ag1)

/-- What one control line does to the process (lines 197-216). -/
inductive LineOutcome where
  | cont (ag : ScreenAgent)
  | exitProc
  | panicked
deriving DecidableEq

/-- `ScreenAgent::process_line` (lines 197-216).  `argsJson` is serde's
parse of the argument payload (`Value::Null` on parse failure), used
only by the `.CONFIG` branch; a wrong-typed recognized field there is
an `unwrap` panic.  `.QUIT` exits the process at once. -/
def ScreenAgent.process_line (ag : ScreenAgent) (line : String) (argsJson : Json) :
    LineOutcome :=
  match parse_line line with
  | none => LineOutcome.cont ag
  | some (cmd, _args) =>
    if cmd = ".CONFIG" then
      match AgentConfig.fromValue argsJson with
      | Except.ok c => LineOutcome.cont { ag with config := c }
      | Except.error _ => LineOutcome.panicked
    else if cmd = ".QUIT" then LineOutcome.exitProc
    else LineOutcome.cont ag

/-- One serviced wakeup of the `tokio::select!` loop (lines 106-124):
either the timer fires (with the external capture and codec outcomes
for that tick) or a control line arrives (with serde's parse of its
argument payload). -/
inductive LoopInput where
  | tick (cap : Except Unit (Option Screenshot)) (png : Except Unit String)
  | ctrlLine (line : String) (argsJson : Json)

/-- One iteration of `run` (lines 106-124): capture-cycle errors are
logged and swallowed (`unwrap_or_else`), but an `unwrap` panic or a
`.QUIT` terminates the process (`none`). -/
def stepCont (ag : ScreenAgent) : LoopInput → Option ScreenAgent
  | LoopInput.tick cap png =>
    match ag.execute_task cap png with
    | (Except.error TaskError.unwrapPanic, _) => none
    | (_, ag2) => some ag2
  | LoopInput.ctrlLine line js =>
    match ag.process_line line js with
    | LineOutcome.cont ag2 => some ag2
    | _ => none

/-- The loop run over a list of serviced inputs; `none` as soon as the
process terminates. -/
def runSteps (ag : ScreenAgent) : List LoopInput → Option ScreenAgent
  | [] => some ag
  | i :: rest =>
    match stepCont ag i with
    | some ag2 => runSteps ag2 rest
    | none => none


theorem updInterval_spec (c : List (String × Json)) (cfg cfg' : AgentConfig)
    (h : updInterval c cfg = Except.ok cfg') :
    cfg'.almost_black_threshold = cfg.almost_black_threshold ∧
    cfg'.non_blank_threshold = cfg.non_blank_threshold ∧
    cfg'.same_screen_ratio = cfg.same_screen_ratio ∧
    (jget c "interval" = none → cfg'.interval = cfg.interval) ∧
    (∀ x n, jget c "interval" = some x → Json.as_u64 x = some n → cfg'.interval = n) := by
  unfold updInterval at h
  split at h
  next x heq =>
    split at h
    next n hu => 
      cases h
      refine ⟨rfl, rfl, rfl, ?_, ?_⟩
      · intro hc
        rw [heq] at hc
        cases hc
      · intro x' n' hx hn
        rw [heq] at hx
        cases hx
        rw [hu] at hn
        cases hn
        rfl
    next hu => cases h
  next heq =>
    cases h
    refine ⟨rfl, rfl, rfl, fun _ => rfl, ?_⟩
    intro x' n' hx
    rw [heq] at hx
    cases hx

theorem updAlmostBlack_spec (c : List (String × Json)) (cfg cfg' : AgentConfig)
    (h : updAlmostBlack c cfg = Except.ok cfg') :
    cfg'.interval = cfg.interval ∧
    cfg'.non_blank_threshold = cfg.non_blank_threshold ∧
    cfg'.same_screen_ratio = cfg.same_screen_ratio ∧
    (jget c "almost_black_threshold" = none →
      cfg'.almost_black_threshold = cfg.almost_black_threshold) ∧
    (∀ x n, jget c "almost_black_threshold" = some x → Json.as_u64 x = some n →
      cfg'.almost_black_threshold = n) := by
  unfold updAlmostBlack at h
  split at h
  next x heq =>
    split at h
    next n hu =>
      cases h
      refine ⟨rfl, rfl, rfl, ?_, ?_⟩
      · intro hc
        rw [heq] at hc
        cases hc
      · intro x' n' hx hn
        rw [heq] at hx
        cases hx
        rw [hu] at hn
        cases hn
        rfl
    next hu => cases h
  next heq =>
    cases h
    refine ⟨rfl, rfl, rfl, fun _ => rfl, ?_⟩
    intro x' n' hx
    rw [heq] at hx
    cases hx

theorem updNonBlank_spec (c : List (String × Json)) (cfg cfg' : AgentConfig)
    (h : updNonBlank c cfg = Except.ok cfg') :
    cfg'.interval = cfg.interval ∧
    cfg'.almost_black_threshold = cfg.almost_black_threshold ∧
    cfg'.same_screen_ratio = cfg.same_screen_ratio ∧
    (jget c "non_blank_threshold" = none →
      cfg'.non_blank_threshold = cfg.non_blank_threshold) ∧
    (∀ x n, jget c "non_blank_threshold" = some x → Json.as_u64 x = some n →
      cfg'.non_blank_threshold = n) := by
  unfold updNonBlank at h
  split at h
  next x heq =>
    split at h
    next n hu =>
      cases h
      refine ⟨rfl, rfl, rfl, ?_, ?_⟩
      · intro hc
        rw [heq] at hc
        cases hc
      · intro x' n' hx hn
        rw [heq] at hx
        cases hx
        rw [hu] at hn
        cases hn
        rfl
    next hu => cases h
  next heq =>
    cases h
    refine ⟨rfl, rfl, rfl, fun _ => rfl, ?_⟩
    intro x' n' hx
    rw [heq] at hx
    cases hx

theorem updSameScreen_spec (c : List (String × Json)) (cfg cfg' : AgentConfig)
    (h : updSameScreen c cfg = Except.ok cfg') :
    cfg'.interval = cfg.interval ∧
    cfg'.almost_black_threshold = cfg.almost_black_threshold ∧
    cfg'.non_blank_threshold = cfg.non_blank_threshold ∧
    (jget c "same_screen_threshold" = none →
      cfg'.same_screen_ratio = cfg.same_screen_ratio) ∧
    (∀ x q, jget c "same_screen_threshold" = some x → Json.as_f64 x = some q →
      cfg'.same_screen_ratio = q) := by
  unfold updSameScreen at h
  split at h
  next x heq =>
    split at h
    next q hu =>
      cases h
      refine ⟨rfl, rfl, rfl, ?_, ?_⟩
      · intro hc
        rw [heq] at hc
        cases hc
      · intro x' q' hx hq
        rw [heq] at hx
        cases hx
        rw [hu] at hq
        cases hq
        rfl
    next hu => cases h
  next heq =>
    cases h
    refine ⟨rfl, rfl, rfl, fun _ => rfl, ?_⟩
    intro x' q' hx
    rw [heq] at hx
    cases hx

theorem fromValue_obj_ok (c : List (String × Json)) (cfg : AgentConfig)
    (h : AgentConfig.fromValue (Json.obj c) = Except.ok cfg) :
    ∃ c1 c2 c3, updInterval c AgentConfig.default = Except.ok c1 ∧
      updAlmostBlack c c1 = Except.ok c2 ∧
      updNonBlank c c2 = Except.ok c3 ∧
      updSameScreen c c3 = Except.ok cfg := by
  unfold AgentConfig.fromValue at h
  split at h
  next c' hc =>
    cases hc
    split at h
    next e h1 => cases h
    next c1 h1 =>
      split at h
      next e h2 => cases h
      next c2 h2 =>
        split at h
        next e h3 => cases h
        next c3 h3 =>
          split at h
          next e h4 => cases h
          next c4 h4 =>
            cases h
            exact ⟨c1, c2, c3, h1, h2, h3, h4⟩
  next x hne => exact (hne c rfl).elim

/-- Agent state before the C1 scenario: previously active config has a
non-default `almost_black_threshold` of 99. -/
def agPrevC1 : ScreenAgent :=
  ScreenAgent.new
    { interval := 60
      almost_black_threshold := 99
      non_blank_threshold := 400
      same_screen_ratio := mkRat 1 100 }

/-- The C1 control line `.CONFIG {"interval": 5}`. -/
def lineC1 : String := ".CONFIG \x7b\"interval\": 5\x7d\n"

/-- serde's parse of the C1 payload. -/
def jsonC1 : Json := Json.obj [("interval", Json.num (JNum.uint 5))]

/-- Agent state after processing the C1 control line. -/
def agNextC1 : ScreenAgent :=
  ScreenAgent.new
    { interval := 5
      almost_black_threshold := 20
      non_blank_threshold := 400
      same_screen_ratio := mkRat 1 100 }

/-- Claim C1, counterexample: after `.CONFIG {"interval": 5}` on an agent
whose active config had `almost_black_threshold = 99`, the unspecified
field does NOT retain its prior value 99 — it is reset to the default
20, because `AgentConfig::from` rebuilds the config from defaults. -/
theorem config_update_retains_prior_refuted :
    ScreenAgent.process_line agPrevC1 lineC1 jsonC1 = LineOutcome.cont agNextC1 ∧
    AgentConfig.interval agNextC1.config = 5 ∧
    AgentConfig.almost_black_threshold agPrevC1.config = 99 ∧
    AgentConfig.almost_black_threshold agNextC1.config = 20 ∧
    AgentConfig.almost_black_threshold agNextC1.config ≠
      AgentConfig.almost_black_threshold agPrevC1.config := by
  refine ⟨by decide, rfl, rfl, rfl, by decide⟩

/-- Claim C1 (amended): a `.CONFIG` command replaces the whole config with
one rebuilt from the `Default` values — every field not present in the
payload takes its default value (not the previously active value), and
every present recognized field takes the payload's value.  The resulting
config does not depend on the previously active one. -/
theorem config_update_builds_from_defaults (ag : ScreenAgent) (line args : String)
    (c : List (String × Json)) (cfg : AgentConfig)
    (hparse : parse_line line = some (".CONFIG", args))
    (hfrom : AgentConfig.fromValue (Json.obj c) = Except.ok cfg) :
    ScreenAgent.process_line ag line (Json.obj c) =
      LineOutcome.cont { ag with config := cfg } ∧
    (jget c "interval" = none → cfg.interval = 60) ∧
    (jget c "almost_black_threshold" = none → cfg.almost_black_threshold = 20) ∧
    (jget c "non_blank_threshold" = none → cfg.non_blank_threshold = 400) ∧
    (jget c "same_screen_threshold" = none → cfg.same_screen_ratio = mkRat 1 100) ∧
    (∀ x n, jget c "interval" = some x → Json.as_u64 x = some n → cfg.interval = n) ∧
    (∀ x n, jget c "almost_black_threshold" = some x → Json.as_u64 x = some n →
      cfg.almost_black_threshold = n) ∧
    (∀ x n, jget c "non_blank_threshold" = some x → Json.as_u64 x = some n →
      cfg.non_blank_threshold = n) ∧
    (∀ x q, jget c "same_screen_threshold" = some x → Json.as_f64 x = some q →
      cfg.same_screen_ratio = q) := by
  obtain ⟨c1, c2, c3, h1, h2, h3, h4⟩ := fromValue_obj_ok c cfg hfrom
  obtain ⟨hA1, hA2, hA3, hA4, hA5⟩ := updInterval_spec c _ _ h1
  obtain ⟨hB1, hB2, hB3, hB4, hB5⟩ := updAlmostBlack_spec c _ _ h2
  obtain ⟨hC1, hC2, hC3, hC4, hC5⟩ := updNonBlank_spec c _ _ h3
  obtain ⟨hD1, hD2, hD3, hD4, hD5⟩ := updSameScreen_spec c _ _ h4
  refine ⟨?_, ?_, ?_, ?_, ?_, ?_, ?_, ?_, ?_⟩
  · unfold ScreenAgent.process_line
    rw [hparse]
    simp [hfrom]
  · intro hn
    rw [hD1, hC1, hB1, hA4 hn]
    rfl
  · intro hn
    rw [hD2, hC2, hB4 hn, hA1]
    rfl
  · intro hn
    rw [hD3, hC4 hn, hB2, hA2]
    rfl
  · intro hn
    rw [hD4 hn, hC3, hB3, hA3]
    rfl
  · intro x n hx hu
    rw [hD1, hC1, hB1, hA5 x n hx hu]
  · intro x n hx hu
    rw [hD2, hC2, hB5 x n hx hu]
  · intro x n hx hu
    rw [hD3, hC5 x n hx hu]
  · intro x q hx hq
    rw [hD5 x q hx hq]

/-- Claim C1 witness: the amended theorem applied to the concrete line
`.CONFIG {"interval": 5}` — the specified field becomes 5, the
unspecified `almost_black_threshold` becomes the default 20. -/
theorem config_update_builds_from_defaults_witness :
    ScreenAgent.process_line agPrevC1 lineC1
      (Json.obj [("interval", Json.num (JNum.uint 5))]) =
      LineOutcome.cont { agPrevC1 with config := agNextC1.config } ∧
    AgentConfig.interval agNextC1.config = 5 ∧
    AgentConfig.almost_black_threshold agNextC1.config = 20 := by
  have h := config_update_builds_from_defaults agPrevC1 lineC1
    "\x7b\"interval\": 5\x7d" [("interval", Json.num (JNum.uint 5))]
    agNextC1.config (by decide) (by rfl)
  exact ⟨h.1, h.2.2.2.2.2.1 (Json.num (JNum.uint 5)) 5 rfl rfl,
    h.2.2.1 rfl⟩

theorem updInterval_bad (c : List (String × Json)) (cfg : AgentConfig) (x : Json)
    (hx : jget c "interval" = some x) (hu : Json.as_u64 x = none) :
    updInterval c cfg = Except.error () := by
  unfold updInterval
  simp [hx, hu]

theorem updAlmostBlack_bad (c : List (String × Json)) (cfg : AgentConfig) (x : Json)
    (hx : jget c "almost_black_threshold" = some x) (hu : Json.as_u64 x = none) :
    updAlmostBlack c cfg = Except.error () := by
  unfold updAlmostBlack
  simp [hx, hu]

theorem updNonBlank_bad (c : List (String × Json)) (cfg : AgentConfig) (x : Json)
    (hx : jget c "non_blank_threshold" = some x) (hu : Json.as_u64 x = none) :
    updNonBlank c cfg = Except.error () := by
  unfold updNonBlank
  simp [hx, hu]

theorem updSameScreen_bad (c : List (String × Json)) (cfg : AgentConfig) (x : Json)
    (hx : jget c "same_screen_threshold" = some x) (hu : Json.as_f64 x = none) :
    updSameScreen c cfg = Except.error () := by
  unfold updSameScreen
  simp [hx, hu]

/-- Claim C4, counterexample: a payload object whose only field is
`same_screen_ratio` (a numeric value 1/2) does NOT override the ratio:
`AgentConfig::from` only recognizes the key `same_screen_threshold`, so
the result is exactly the default config and the ratio stays 1/100. -/
theorem config_same_screen_ratio_key_refuted :
    AgentConfig.fromValue
        (Json.obj [("same_screen_ratio", Json.num (JNum.float (mkRat 1 2)))]) =
      Except.ok AgentConfig.default ∧
    AgentConfig.same_screen_ratio AgentConfig.default = mkRat 1 100 ∧
    AgentConfig.same_screen_ratio AgentConfig.default ≠ mkRat 1 2 := by
  refine ⟨rfl, rfl, by decide⟩

/-- Claim C4 (amended): the key the source recognizes for the same-screen
ratio is `same_screen_threshold`; a payload object containing that key
with a numeric value overrides the default ratio with that value
(whereas the key `same_screen_ratio` is ignored, as the counterexample
shows). -/
theorem config_same_screen_threshold_overrides (c : List (String × Json))
    (x : Json) (q : ℚ) (cfg : AgentConfig)
    (hx : jget c "same_screen_threshold" = some x)
    (hq : Json.as_f64 x = some q)
    (hok : AgentConfig.fromValue (Json.obj c) = Except.ok cfg) :
    cfg.same_screen_ratio = q := by
  obtain ⟨c1, c2, c3, h1, h2, h3, h4⟩ := fromValue_obj_ok c cfg hok
  exact (updSameScreen_spec c _ _ h4).2.2.2.2 x q hx hq

/-- Claim C4 witness: a concrete payload `{"same_screen_threshold": 3/10}`
yields a config whose ratio is 3/10. -/
theorem config_same_screen_threshold_overrides_witness :
    AgentConfig.same_screen_ratio
      { AgentConfig.default with same_screen_ratio := mkRat 3 10 } = mkRat 3 10 := by
  exact config_same_screen_threshold_overrides
    [("same_screen_threshold", Json.num (JNum.float (mkRat 3 10)))]
    (Json.num (JNum.float (mkRat 3 10))) (mkRat 3 10)
    { AgentConfig.default with same_screen_ratio := mkRat 3 10 }
    rfl rfl rfl

/-- Claim C5: a payload that parses as a JSON object and contains any
recognized field whose value is not readable as the expected number is a
fatal parse condition (the `unwrap` panics, modelled as `Except.error ()`),
while a payload that is not a JSON object at all (including unparseable
strings, which serde maps to `Value::Null`) yields the default config
without failure. -/
theorem config_wrong_type_is_fatal (c : List (String × Json)) (v : Json)
    (h1 : (∃ x, jget c "interval" = some x ∧ Json.as_u64 x = none) ∨
          (∃ x, jget c "almost_black_threshold" = some x ∧ Json.as_u64 x = none) ∨
          (∃ x, jget c "non_blank_threshold" = some x ∧ Json.as_u64 x = none) ∨
          (∃ x, jget c "same_screen_threshold" = some x ∧ Json.as_f64 x = none))
    (h2 : Json.isObj v = false) :
    AgentConfig.fromValue (Json.obj c) = Except.error () ∧
    AgentConfig.fromValue v = Except.ok AgentConfig.default := by
  constructor
  · rcases h1 with ⟨x, hx, hu⟩ | ⟨x, hx, hu⟩ | ⟨x, hx, hu⟩ | ⟨x, hx, hu⟩
    · have hbad := updInterval_bad c AgentConfig.default x hx hu
      simp [AgentConfig.fromValue, hbad]
    · rcases hI : updInterval c AgentConfig.default with e | c1
      · simp [AgentConfig.fromValue, hI]
      · have hbad := updAlmostBlack_bad c c1 x hx hu
        simp [AgentConfig.fromValue, hI, hbad]
    · rcases hI : updInterval c AgentConfig.default with e | c1
      · simp [AgentConfig.fromValue, hI]
      · rcases hA : updAlmostBlack c c1 with e | c2
        · simp [AgentConfig.fromValue, hI, hA]
        · have hbad := updNonBlank_bad c c2 x hx hu
          simp [AgentConfig.fromValue, hI, hA, hbad]
    · rcases hI : updInterval c AgentConfig.default with e | c1
      · simp [AgentConfig.fromValue, hI]
      · rcases hA : updAlmostBlack c c1 with e | c2
        · simp [AgentConfig.fromValue, hI, hA]
        · rcases hN : updNonBlank c c2 with e | c3
          · simp [AgentConfig.fromValue, hI, hA, hN]
          · have hbad := updSameScreen_bad c c3 x hx hu
            simp [AgentConfig.fromValue, hI, hA, hN, hbad]
  · cases v with
    | null => rfl
    | bool b => rfl
    | num n => rfl
    | str s => rfl
    | arr xs => rfl
    | obj fields => simp [Json.isObj] at h2

/-- Claim C5 witness: `{"interval": "x"}` (a recognized field with a
string value) is fatal; the non-object payload `null` yields the
defaults. -/
theorem config_wrong_type_is_fatal_witness :
    AgentConfig.fromValue (Json.obj [("interval", Json.str "x")]) =
      Except.error () ∧
    AgentConfig.fromValue Json.null = Except.ok AgentConfig.default := by
  exact config_wrong_type_is_fatal [("interval", Json.str "x")] Json.null
    (Or.inl ⟨Json.str "x", rfl, rfl⟩) rfl

/-- Spec-side non-blank predicate of claim C7: any channel at least the
threshold, with the threshold taken literally (no u8 cast). -/
def specNonBlank (abt : Nat) (p : Rgba) : Bool :=
  decide (abt ≤ p.r) || decide (abt ≤ p.g) || decide (abt ≤ p.b)

/-- Number of non-blank pixels (spec-side predicate) in a pixel list. -/
def countSpecNB (abt : Nat) (l : List Rgba) : Nat :=
  (l.filter (specNonBlank abt)).length

theorem nonBlankPix_eq_spec (abt : Nat) (h : abt ≤ 255) (p : Rgba) :
    nonBlankPix abt p = specNonBlank abt p := by
  unfold nonBlankPix specNonBlank
  rw [Nat.mod_eq_of_lt (by omega)]

theorem countNB_take_cons (abt : Nat) (p : Rgba) (rest : List Rgba) (k : Nat) :
    ((List.take (k + 1) (p :: rest)).filter (nonBlankPix abt)).length =
      (if nonBlankPix abt p then 1 else 0) +
        ((List.take k rest).filter (nonBlankPix abt)).length := by
  cases h : nonBlankPix abt p
  · simp [List.filter_cons, h]
  · simp [List.filter_cons, h]
    omega

theorem isBlankAux_false_iff (abt nbt : Nat) (l : List Rgba) : ∀ (c : Nat),
    isBlankAux abt nbt c l = false ↔
      ∃ k, 1 ≤ k ∧ k ≤ l.length ∧
        nbt ≤ c + ((l.take k).filter (nonBlankPix abt)).length := by
  induction l with
  | nil =>
    intro c
    constructor
    · intro h
      simp [isBlankAux] at h
    · rintro ⟨k, h1, h2, h3⟩
      simp at h2
      omega
  | cons p rest ih =>
    intro c
    have key : isBlankAux abt nbt c (p :: rest) =
        (if nbt ≤ (if nonBlankPix abt p then c + 1 else c) then false
         else isBlankAux abt nbt (if nonBlankPix abt p then c + 1 else c) rest) := rfl
    rw [key]
    by_cases hth : nbt ≤ (if nonBlankPix abt p then c + 1 else c)
    · rw [if_pos hth]
      constructor
      · intro _
        refine ⟨1, le_refl 1, by simp, ?_⟩
        have h1 : ((List.take 1 (p :: rest)).filter (nonBlankPix abt)).length =
            (if nonBlankPix abt p then 1 else 0) +
              ((List.take 0 rest).filter (nonBlankPix abt)).length :=
          countNB_take_cons abt p rest 0
        cases hnb : nonBlankPix abt p <;>
          rw [hnb] at h1 hth <;> simp at h1 hth ⊢ <;> omega
      · intro _
        rfl
    · rw [if_neg hth]
      rw [ih]
      constructor
      · rintro ⟨k, h1, h2, h3⟩
        refine ⟨k + 1, by omega, by simp; omega, ?_⟩
        rw [countNB_take_cons]
        cases hnb : nonBlankPix abt p <;>
          rw [hnb] at h3 hth <;> simp at h3 hth ⊢ <;> omega
      · rintro ⟨k, h1, h2, h3⟩
        obtain ⟨k', rfl⟩ : ∃ k', k = k' + 1 := ⟨k - 1, by omega⟩
        rw [countNB_take_cons] at h3
        rcases Nat.eq_zero_or_pos k' with rfl | hk'
        · exfalso
          cases hnb : nonBlankPix abt p <;>
            rw [hnb] at h3 hth <;> simp at h3 hth <;> omega
        · refine ⟨k', by omega, by simp at h2; omega, ?_⟩
          cases hnb : nonBlankPix abt p <;>
            rw [hnb] at h3 hth <;> simp at h3 hth ⊢ <;> omega

/-- Claim C7: with the threshold in its documented 0-255 range, a frame
whose sampled non-blank pixel count never reaches `non_blank_threshold`
is blank, and a frame whose running sampled count reaches the threshold
within the sampled sequence is not blank — independent of the pixels
outside the sampled stride, since only `sampleStride 120 img.data`
appears. -/
theorem blank_filter_threshold (cfg : AgentConfig) (img : RgbaImage)
    (h0 : cfg.almost_black_threshold ≤ 255) :
    (countSpecNB cfg.almost_black_threshold (sampleStride 120 img.data) <
        cfg.non_blank_threshold →
      ScreenAgent.is_blank ⟨cfg, none, none⟩ img = true) ∧
    (∀ k, 1 ≤ k → k ≤ (sampleStride 120 img.data).length →
      cfg.non_blank_threshold ≤
        countSpecNB cfg.almost_black_threshold ((sampleStride 120 img.data).take k) →
      ScreenAgent.is_blank ⟨cfg, none, none⟩ img = false) := by
  have hpred : ∀ l : List Rgba,
      l.filter (nonBlankPix cfg.almost_black_threshold) =
        l.filter (specNonBlank cfg.almost_black_threshold) := by
    intro l
    apply List.filter_congr
    intro p _
    rw [nonBlankPix_eq_spec cfg.almost_black_threshold h0]
  constructor
  · intro hlt
    cases hb : ScreenAgent.is_blank ⟨cfg, none, none⟩ img
    · exfalso
      have hfalse : isBlankAux cfg.almost_black_threshold cfg.non_blank_threshold 0
          (sampleStride 120 img.data) = false := hb
      obtain ⟨k, h1, h2, h3⟩ :=
        (isBlankAux_false_iff cfg.almost_black_threshold cfg.non_blank_threshold
          (sampleStride 120 img.data) 0).mp hfalse
      have hmono : (((sampleStride 120 img.data).take k).filter
            (nonBlankPix cfg.almost_black_threshold)).length ≤
          ((sampleStride 120 img.data).filter
            (nonBlankPix cfg.almost_black_threshold)).length :=
        ((List.take_sublist k (sampleStride 120 img.data)).filter _).length_le
      simp only [hpred] at hmono h3
      unfold countSpecNB at hlt
      omega
    · rfl
  · intro k h1 h2 h3
    show isBlankAux cfg.almost_black_threshold cfg.non_blank_threshold 0
      (sampleStride 120 img.data) = false
    refine (isBlankAux_false_iff cfg.almost_black_threshold cfg.non_blank_threshold
      (sampleStride 120 img.data) 0).mpr ⟨k, h1, h2, ?_⟩
    rw [hpred]
    unfold countSpecNB at h3
    omega

/-- Test config for the blank-filter witnesses: default thresholds except
`non_blank_threshold = 1`. -/
def cfgBlankW : AgentConfig :=
  { interval := 60
    almost_black_threshold := 20
    non_blank_threshold := 1
    same_screen_ratio := mkRat 1 100 }

/-- All-black 4×4 frame. -/
def imgBlack4 : RgbaImage :=
  { width := 4, height := 4, data := List.replicate 16 ⟨0, 0, 0, 255⟩ }

/-- All-white 4×4 frame. -/
def imgWhite4 : RgbaImage :=
  { width := 4, height := 4, data := List.replicate 16 ⟨255, 255, 255, 255⟩ }

/-- Claim C7 witness: with threshold 20 and non-blank count 1, the
all-black frame is blank and the all-white frame is not. -/
theorem blank_filter_threshold_witness :
    ScreenAgent.is_blank ⟨cfgBlankW, none, none⟩ imgBlack4 = true ∧
    ScreenAgent.is_blank ⟨cfgBlankW, none, none⟩ imgWhite4 = false := by
  constructor
  · exact (blank_filter_threshold cfgBlankW imgBlack4 (by decide)).1 (by decide)
  · exact (blank_filter_threshold cfgBlankW imgWhite4 (by decide)).2 1 (by decide)
      (by decide) (by decide)

theorem nonBlankPix_mod (abt : Nat) (p : Rgba) :
    nonBlankPix (abt % 256) p = nonBlankPix abt p := by
  unfold nonBlankPix
  rw [Nat.mod_mod_of_dvd abt dvd_rfl]

theorem isBlankAux_mod (abt nbt : Nat) (l : List Rgba) : ∀ (c : Nat),
    isBlankAux (abt % 256) nbt c l = isBlankAux abt nbt c l := by
  induction l with
  | nil => intro c; rfl
  | cons p rest ih =>
    intro c
    show (if nbt ≤ (if nonBlankPix (abt % 256) p then c + 1 else c) then false
        else isBlankAux (abt % 256) nbt
          (if nonBlankPix (abt % 256) p then c + 1 else c) rest) =
      (if nbt ≤ (if nonBlankPix abt p then c + 1 else c) then false
        else isBlankAux abt nbt (if nonBlankPix abt p then c + 1 else c) rest)
    rw [nonBlankPix_mod, ih]

/-- Claim C10: the blank filter compares channels against
`almost_black_threshold` truncated to 8 bits (`as u8`, i.e. mod 256): a
config behaves exactly like one whose threshold is reduced mod 256; in
particular with threshold 256 every sampled pixel counts as non-blank
and the filter behaves exactly as with threshold 0, rather than no
pixel counting as non-blank. -/
theorem blank_filter_u8_truncation :
    (∀ p : Rgba, nonBlankPix 256 p = true) ∧
    (∀ (cfg : AgentConfig) (img : RgbaImage),
      ScreenAgent.is_blank
          ⟨{ cfg with almost_black_threshold := cfg.almost_black_threshold % 256 },
            none, none⟩ img =
        ScreenAgent.is_blank ⟨cfg, none, none⟩ img) ∧
    (∀ (cfg : AgentConfig) (img : RgbaImage),
      ScreenAgent.is_blank ⟨{ cfg with almost_black_threshold := 256 }, none, none⟩ img =
        ScreenAgent.is_blank ⟨{ cfg with almost_black_threshold := 0 }, none, none⟩ img) := by
  refine ⟨?_, ?_, ?_⟩
  · intro p
    simp [nonBlankPix]
  · intro cfg img
    exact isBlankAux_mod cfg.almost_black_threshold cfg.non_blank_threshold
      (sampleStride 120 img.data) 0
  · intro cfg img
    show isBlankAux 256 cfg.non_blank_threshold 0 (sampleStride 120 img.data) =
      isBlankAux 0 cfg.non_blank_threshold 0 (sampleStride 120 img.data)
    have h := isBlankAux_mod 256 cfg.non_blank_threshold (sampleStride 120 img.data) 0
    simpa using h.symm

theorem diffGt5_self (a : Nat) : diffGt5 a a = false := by
  simp [diffGt5]

theorem zip_self_diff_len (l : List Nat) :
    ((l.zip l).filter (fun p => diffGt5 p.1 p.2)).length = 0 := by
  induction l with
  | nil => rfl
  | cons a rest ih =>
    show ((( a, a) :: rest.zip rest).filter (fun p => diffGt5 p.1 p.2)).length = 0
    rw [List.filter_cons]
    simp only [diffGt5_self]
    simpa using ih

theorem get_difference_ratio2_self (g : GrayImage) :
    get_difference_ratio2 g g = ⟨0, g.width * g.height⟩ := by
  unfold get_difference_ratio2
  rw [if_neg (by simp)]
  simp [zip_self_diff_len]

/-- Claim C6 (amended): for frames of width and height at least 4 (so the
4×-downsampled fingerprint is nonempty), if the stored fingerprint was
produced from a bit-identical frame and `same_screen_ratio > 0`, the
change detector judges "same".  (For smaller frames the fingerprint is
0×0 and the difference ratio is the NaN `0.0/0.0`, which compares false
— see the counterexample.) -/
theorem change_detector_identical_same (ag : ScreenAgent) (s : Screenshot)
    (h1 : 4 ≤ s.image.width) (h2 : 4 ≤ s.image.height)
    (h3 : ag.last_image = some (fast_downsample s.image 4))
    (h4 : 0 < ag.config.same_screen_ratio) :
    (ScreenAgent.is_same ag s).1 = true := by
  unfold ScreenAgent.is_same
  rw [h3]
  dsimp only
  rw [get_difference_ratio2_self]
  have hwidth : (fast_downsample s.image 4).width = s.image.width / 4 := rfl
  have hheight : (fast_downsample s.image 4).height = s.image.height / 4 := rfl
  have hden : (fast_downsample s.image 4).width * (fast_downsample s.image 4).height ≠ 0 := by
    rw [hwidth, hheight]
    have hw : 1 ≤ s.image.width / 4 := (Nat.one_le_div_iff (by norm_num)).mpr h1
    have hh : 1 ≤ s.image.height / 4 := (Nat.one_le_div_iff (by norm_num)).mpr h2
    positivity
  have hlt : DiffRatio.lt
      ⟨0, (fast_downsample s.image 4).width * (fast_downsample s.image 4).height⟩
      ag.config.same_screen_ratio = true := by
    unfold DiffRatio.lt
    apply decide_eq_true
    refine ⟨hden, ?_⟩
    have hz : mkRat (Int.ofNat 0)
        ((fast_downsample s.image 4).width * (fast_downsample s.image 4).height) = 0 := by
      rw [Rat.mkRat_eq_div]
      norm_num
    rw [hz]
    exact h4
  rw [hlt]
  rfl

/-- All-white 2×2 frame: too small for a nonempty 4×-downsampled
fingerprint. -/
def imgWhite2 : RgbaImage :=
  { width := 2, height := 2, data := List.replicate 4 ⟨255, 255, 255, 255⟩ }

/-- Concrete capture timestamp used by the detector scenarios. -/
def tsW : Timestamp := { millis := 0, ymd := "20260101", hms := "000000" }

/-- Screenshot of the 2×2 white frame. -/
def sshotW2 : Screenshot := { timestamp := tsW, monitor := 0, image := imgWhite2 }

/-- Agent whose stored fingerprint came from a frame bit-identical to
`sshotW2` (the fingerprint is the empty 0×0 image). -/
def agC6 : ScreenAgent :=
  { config := AgentConfig.default
    last_image := some (fast_downsample imgWhite2 4)
    last_image_id := none }

/-- Claim C6, counterexample: with a 2×2 frame the downsampled
fingerprint is 0×0, the difference ratio is `0.0/0.0` (NaN), every
comparison with it is false, and the detector judges the bit-identical
frame "different" even though `same_screen_ratio = 1/100 > 0`. -/
theorem change_detector_identical_same_refuted :
    (0 : ℚ) < AgentConfig.same_screen_ratio agC6.config ∧
    agC6.last_image = some (fast_downsample sshotW2.image 4) ∧
    (ScreenAgent.is_same agC6 sshotW2).1 = false := by
  refine ⟨by decide, rfl, by decide⟩

/-- Screenshot of the 4×4 white frame. -/
def sshotW4 : Screenshot := { timestamp := tsW, monitor := 0, image := imgWhite4 }

/-- Agent whose stored fingerprint came from a frame bit-identical to
`sshotW4`. -/
def agC6w : ScreenAgent :=
  { config := AgentConfig.default
    last_image := some (fast_downsample imgWhite4 4)
    last_image_id := none }

/-- Claim C6 witness: on the 4×4 white frame with its own fingerprint
stored and ratio 1/100 > 0, the detector judges "same". -/
theorem change_detector_identical_same_witness :
    (ScreenAgent.is_same agC6w sshotW4).1 = true :=
  change_detector_identical_same agC6w sshotW4 (by decide) (by decide) rfl (by decide)

/-- Claim C8: when a stored fingerprint exists and its dimensions differ
from the new frame's downsampled fingerprint, the difference ratio is
the literal 1.0 and — for any `same_screen_ratio` in the documented
range 0.0-1.0 — the comparison `1.0 < ratio` is false, so the detector
judges "different". -/
theorem change_detector_dim_mismatch_different (ag : ScreenAgent) (s : Screenshot)
    (last : GrayImage)
    (h1 : ag.last_image = some last)
    (h2 : (fast_downsample s.image 4).width ≠ last.width ∨
          (fast_downsample s.image 4).height ≠ last.height)
    (_h3 : 0 ≤ ag.config.same_screen_ratio)
    (h4 : ag.config.same_screen_ratio ≤ 1) :
    (ScreenAgent.is_same ag s).1 = false := by
  unfold ScreenAgent.is_same
  rw [h1]
  dsimp only
  have hr : get_difference_ratio2 (fast_downsample s.image 4) last = ⟨1, 1⟩ := by
    unfold get_difference_ratio2
    rw [if_pos h2]
  rw [hr]
  have hone : mkRat (Int.ofNat 1) 1 = 1 := by
    rw [Rat.mkRat_eq_div]
    norm_num
  have hlt : DiffRatio.lt ⟨1, 1⟩ ag.config.same_screen_ratio = false := by
    unfold DiffRatio.lt
    apply decide_eq_false
    rintro ⟨-, hq⟩
    rw [hone] at hq
    exact absurd hq (not_lt.mpr h4)
  rw [hlt]
  rfl

/-- Agent for the C8 witness: stored fingerprint is 2×2, while the 4×4
frame's fingerprint is 1×1. -/
def agC8 : ScreenAgent :=
  { config := AgentConfig.default
    last_image := some { width := 2, height := 2, data := [0, 0, 0, 0] }
    last_image_id := none }

/-- Claim C8 witness: dimension mismatch (1×1 vs stored 2×2) with the
default ratio 1/100 ∈ [0, 1] yields "different". -/
theorem change_detector_dim_mismatch_different_witness :
    (ScreenAgent.is_same agC8 sshotW4).1 = false :=
  change_detector_dim_mismatch_different agC8 sshotW4
    { width := 2, height := 2, data := [0, 0, 0, 0] }
    rfl (Or.inl (by decide)) (by decide) (by decide)

/-- Claim C9: whenever the change detector judges a frame "same", the
whole agent state — in particular the stored fingerprint `last_image` —
is exactly what it was before the call; the fingerprint is replaced
only on a "different" verdict. -/
theorem change_detector_same_keeps_fingerprint (ag : ScreenAgent) (s : Screenshot)
    (h : (ScreenAgent.is_same ag s).1 = true) :
    (ScreenAgent.is_same ag s).2 = ag := by
  unfold ScreenAgent.is_same at h ⊢
  rcases hli : ag.last_image with _ | li
  · rw [hli] at h
    dsimp only at h
    cases h
  · rw [hli] at h
    dsimp only at h ⊢
    by_cases hd : DiffRatio.lt (get_difference_ratio2 (fast_downsample s.image 4) li)
        ag.config.same_screen_ratio = true
    · rw [if_pos hd]
    · rw [if_neg hd] at h
      cases h

/-- Agent for the C9 witness: fingerprint of the 4×4 white frame stored
together with a previously emitted image id. -/
def agC9 : ScreenAgent :=
  { config := AgentConfig.default
    last_image := some (fast_downsample imgWhite4 4)
    last_image_id := some "20260101-000000-0" }

/-- Claim C9 witness: a concrete "same" verdict (identical 4×4 white
frame) leaves the agent, and hence `last_image`, unchanged. -/
theorem change_detector_same_keeps_fingerprint_witness :
    (ScreenAgent.is_same agC9 sshotW4).1 = true ∧
    (ScreenAgent.is_same agC9 sshotW4).2 = agC9 :=
  ⟨by decide, change_detector_same_keeps_fingerprint agC9 sshotW4 (by decide)⟩

theorem is_same_keeps_id_config (ag : ScreenAgent) (s : Screenshot) :
    (ScreenAgent.is_same ag s).2.last_image_id = ag.last_image_id ∧
    (ScreenAgent.is_same ag s).2.config = ag.config := by
  unfold ScreenAgent.is_same
  rcases ag.last_image with _ | li
  · exact ⟨rfl, rfl⟩
  · dsimp only
    by_cases hd : DiffRatio.lt (get_difference_ratio2 (fast_downsample s.image 4) li)
        ag.config.same_screen_ratio = true
    · rw [if_pos hd]
      exact ⟨rfl, rfl⟩
    · rw [if_neg hd]
      exact ⟨rfl, rfl⟩

instance exceptDecEq {e a : Type} [DecidableEq e] [DecidableEq a] :
    DecidableEq (Except e a)
  | Except.error x, Except.error y =>
    if h : x = y then isTrue (by rw [h]) else isFalse (by intro hc; cases hc; exact h rfl)
  | Except.error x, Except.ok y => isFalse (by intro hc; cases hc)
  | Except.ok x, Except.error y => isFalse (by intro hc; cases hc)
  | Except.ok x, Except.ok y =>
    if h : x = y then isTrue (by rw [h]) else isFalse (by intro hc; cases hc; exact h rfl)

/-- Claim C2 (amended): a capture failure aborts the cycle with no event
and the agent state exactly as before; an encoding failure aborts the
cycle with no event and leaves `last_image_id` and the config
unchanged, but the stored fingerprint `last_image` has already been
replaced by `is_same` — which runs before PNG encoding — when the frame
was judged different (see the counterexample). -/
theorem execute_task_capture_err (ag : ScreenAgent) (cap : Except Unit (Option Screenshot))
    (png : Except Unit String) (e : Unit)
    (hts : ScreenAgent.take_screenshot ag cap = Except.error e) :
    ScreenAgent.execute_task ag cap png = (Except.error TaskError.capture, ag) := by
  unfold ScreenAgent.execute_task
  rw [hts]

theorem execute_task_no_frame (ag : ScreenAgent) (cap : Except Unit (Option Screenshot))
    (png : Except Unit String)
    (hts : ScreenAgent.take_screenshot ag cap = Except.ok none) :
    ScreenAgent.execute_task ag cap png = (Except.ok [], ag) := by
  unfold ScreenAgent.execute_task
  rw [hts]

theorem execute_task_same_some (ag : ScreenAgent) (cap : Except Unit (Option Screenshot))
    (png : Except Unit String) (s : Screenshot) (id : String)
    (hts : ScreenAgent.take_screenshot ag cap = Except.ok (some s))
    (hsame : (ScreenAgent.is_same ag s).1 = true)
    (hid : (ScreenAgent.is_same ag s).2.last_image_id = some id) :
    ScreenAgent.execute_task ag cap png =
      (Except.ok [Event.sameScreen s.timestamp.millis id], (ScreenAgent.is_same ag s).2) := by
  unfold ScreenAgent.execute_task
  rw [hts]
  dsimp only
  rw [hsame, hid]
  rfl

theorem execute_task_same_none (ag : ScreenAgent) (cap : Except Unit (Option Screenshot))
    (png : Except Unit String) (s : Screenshot)
    (hts : ScreenAgent.take_screenshot ag cap = Except.ok (some s))
    (hsame : (ScreenAgent.is_same ag s).1 = true)
    (hid : (ScreenAgent.is_same ag s).2.last_image_id = none) :
    ScreenAgent.execute_task ag cap png =
      (Except.error TaskError.unwrapPanic, (ScreenAgent.is_same ag s).2) := by
  unfold ScreenAgent.execute_task
  rw [hts]
  dsimp only
  rw [hsame, hid]
  rfl

theorem execute_task_diff_ok (ag : ScreenAgent) (cap : Except Unit (Option Screenshot))
    (img : String) (s : Screenshot)
    (hts : ScreenAgent.take_screenshot ag cap = Except.ok (some s))
    (hsame : (ScreenAgent.is_same ag s).1 = false) :
    ScreenAgent.execute_task ag cap (Except.ok img) =
      (Except.ok [Event.screen s.timestamp.millis img (mk_image_id s)],
        { (ScreenAgent.is_same ag s).2 with last_image_id := some (mk_image_id s) }) := by
  unfold ScreenAgent.execute_task
  rw [hts]
  dsimp only
  rw [hsame]
  rfl

theorem execute_task_diff_err (ag : ScreenAgent) (cap : Except Unit (Option Screenshot))
    (e : Unit) (s : Screenshot)
    (hts : ScreenAgent.take_screenshot ag cap = Except.ok (some s))
    (hsame : (ScreenAgent.is_same ag s).1 = false) :
    ScreenAgent.execute_task ag cap (Except.error e) =
      (Except.error TaskError.encode, (ScreenAgent.is_same ag s).2) := by
  unfold ScreenAgent.execute_task
  rw [hts]
  dsimp only
  rw [hsame]
  rfl

theorem failed_cycle_effects (ag ag2 : ScreenAgent)
    (cap cap2 : Except Unit (Option Screenshot)) (png png2 : Except Unit String)
    (h1 : (ScreenAgent.execute_task ag cap png).1 = Except.error TaskError.capture)
    (h2 : (ScreenAgent.execute_task ag2 cap2 png2).1 = Except.error TaskError.encode) :
    (ScreenAgent.execute_task ag cap png).2 = ag ∧
    (ScreenAgent.execute_task ag2 cap2 png2).2.last_image_id = ag2.last_image_id ∧
    (ScreenAgent.execute_task ag2 cap2 png2).2.config = ag2.config := by
  constructor
  · rcases hts : ScreenAgent.take_screenshot ag cap with e | os
    · rw [execute_task_capture_err ag cap png e hts]
    · rcases os with _ | s
      · rw [execute_task_no_frame ag cap png hts] at h1
        simp at h1
      · rcases hsame : (ScreenAgent.is_same ag s).1 with _ | _
        · rcases png with e | img
          · rw [execute_task_diff_err ag cap e s hts hsame] at h1
            simp at h1
          · rw [execute_task_diff_ok ag cap img s hts hsame] at h1
            simp at h1
        · rcases hid : (ScreenAgent.is_same ag s).2.last_image_id with _ | id
          · rw [execute_task_same_none ag cap png s hts hsame hid] at h1
            simp at h1
          · rw [execute_task_same_some ag cap png s id hts hsame hid] at h1
            simp at h1
  · rcases hts : ScreenAgent.take_screenshot ag2 cap2 with e | os
    · rw [execute_task_capture_err ag2 cap2 png2 e hts] at h2
      simp at h2
    · rcases os with _ | s
      · rw [execute_task_no_frame ag2 cap2 png2 hts] at h2
        simp at h2
      · rcases hsame : (ScreenAgent.is_same ag2 s).1 with _ | _
        · rcases png2 with e | img
          · rw [execute_task_diff_err ag2 cap2 e s hts hsame]
            exact is_same_keeps_id_config ag2 s
          · rw [execute_task_diff_ok ag2 cap2 img s hts hsame] at h2
            simp at h2
        · rcases hid : (ScreenAgent.is_same ag2 s).2.last_image_id with _ | id
          · rw [execute_task_same_none ag2 cap2 png2 s hts hsame hid] at h2
            simp at h2
          · rw [execute_task_same_some ag2 cap2 png2 s id hts hsame hid] at h2
            simp at h2

/-- Fresh agent with `non_blank_threshold = 1`, as started with the CLI
config `{"non_blank_threshold": 1}`. -/
def agC2 : ScreenAgent := ScreenAgent.new cfgBlankW

/-- Claim C2, counterexample: a cycle in which PNG encoding fails ends
with `last_image` CHANGED — `is_same` had already stored the new
fingerprint before the encoder ran — contradicting "the AgentState is
exactly what it was before the cycle started". -/
theorem failed_cycle_preserves_state_refuted :
    (ScreenAgent.execute_task agC2 (Except.ok (some sshotW4)) (Except.error ())).1 =
      Except.error TaskError.encode ∧
    (ScreenAgent.execute_task agC2 (Except.ok (some sshotW4)) (Except.error ())).2.last_image ≠
      agC2.last_image := by
  refine ⟨by decide, by decide⟩

/-- Claim C2 witness: concrete capture failure leaves the state intact;
concrete encoding failure leaves `last_image_id` and config intact. -/
theorem failed_cycle_effects_witness :
    (ScreenAgent.execute_task agC2 (Except.error ()) (Except.ok "")).2 = agC2 ∧
    (ScreenAgent.execute_task agC2 (Except.ok (some sshotW4)) (Except.error ())).2.last_image_id =
      agC2.last_image_id ∧
    (ScreenAgent.execute_task agC2 (Except.ok (some sshotW4)) (Except.error ())).2.config =
      agC2.config :=
  failed_cycle_effects agC2 agC2 (Except.error ()) (Except.ok (some sshotW4))
    (Except.ok "") (Except.error ()) (by decide) (by decide)

/-- Agent state after the C3 failing trace's first tick: the fingerprint
of the white 4×4 frame is stored, but no event id — the ScreenEvent was
never emitted because PNG encoding failed. -/
def agAfterC3 : ScreenAgent :=
  { config := cfgBlankW
    last_image := some (fast_downsample imgWhite4 4)
    last_image_id := none }

/-- Claim C3 (code bug): the "same" path's `unwrap` CAN fail in a
reachable state.  Start the agent with the CLI config
`{"non_blank_threshold": 1}`; on the first tick a non-blank frame is
captured and judged different — which already stores its fingerprint —
but PNG encoding fails, so no ScreenEvent is emitted and
`last_image_id` stays `None`.  The loop swallows the error and
continues.  On the next tick the identical frame is judged "same" and
`self.last_image_id.clone().unwrap()` panics. -/
theorem same_screen_unwrap_panics :
    AgentConfig.fromValue (Json.obj [("non_blank_threshold", Json.num (JNum.uint 1))]) =
      Except.ok cfgBlankW ∧
    runSteps (ScreenAgent.new cfgBlankW)
        [LoopInput.tick (Except.ok (some sshotW4)) (Except.error ())] =
      some agAfterC3 ∧
    ScreenAgent.last_image_id agAfterC3 = none ∧
    (ScreenAgent.is_same agAfterC3 sshotW4).1 = true ∧
    (ScreenAgent.execute_task agAfterC3 (Except.ok (some sshotW4)) (Except.ok "png")).1 =
      Except.error TaskError.unwrapPanic := by
  refine ⟨rfl, by decide, rfl, by decide, by decide⟩
